import Mathlib

/-!
Verification of the `django_ledger` LedgerModel lifecycle core
(`src/django_ledger/models/ledger.py`) against its specification.

Shallow embedding conventions:
* An `EntityModel` keeps only the fields the ledger code reads: primary key,
  slug, admin user, manager users and the optional `last_closing_date`.
  Users are identified by their primary key (a `Nat`); dates are day numbers
  (days since the Unix epoch) and journal-entry timestamps are seconds since
  the epoch, so Python's `datetime.date()` truncation is `t / 86400`.
* The ledger lifecycle methods (`post`, `unpost`, `lock`, `unlock`) mutate
  `self` in Python; here they are functions `LedgerModel → LedgerModel`.
  The `commit` flag only controls persistence of the same fields and has no
  effect on the in-memory state, so it is not modelled.
* `delete` either raises or destroys the row; in both cases the in-memory
  instance's fields are untouched.  It is embedded as a function returning
  the outcome together with the (unchanged) instance state after the call.
  Python evaluating `earliest_date <= None` raises a `TypeError`; that crash
  is a distinct outcome `noneComparisonError`.
-/

/-- Embedding of the fields of `EntityModel` read by `ledger.py`:
`entity.pk` (FK comparisons), `entity.slug`, `entity.admin`,
`entity.managers` and `entity.last_closing_date` (an optional date,
modelled as an optional day number). -/
structure EntityModel where
  pk : Nat
  slug : String
  admin : Nat
  managers : List Nat
  last_closing_date : Option Nat
deriving DecidableEq, Repr

/-- Embedding of `LedgerModelAbstract`'s fields: `name` (nullable char
field), the owning `entity`, and the three boolean flags with their
`default=False` defaults. -/
structure LedgerModel where
  name : Option String := none
  entity : EntityModel
  posted : Bool := false
  locked : Bool := false
  hidden : Bool := false
deriving DecidableEq, Repr

/-- Embedding of `JournalEntryModel`'s fields used by `LedgerModel.delete`:
the `posted` flag (the `.posted()` queryset filter) and the `timestamp`
(seconds since the epoch). -/
structure JournalEntryModel where
  timestamp : Nat
  posted : Bool
deriving DecidableEq, Repr

/-- Python `timestamp.date()`: truncate a seconds-since-epoch timestamp to
its day number. -/
def timestampDate (t : Nat) : Nat := t / 86400

namespace LedgerModelAbstract

/-- `is_posted`: `return self.posted is True`. -/
def is_posted (l : LedgerModel) : Bool := l.posted

/-- `is_locked`: `return self.locked is True`. -/
def is_locked (l : LedgerModel) : Bool := l.locked

/-- `is_hidden`: `return self.hidden is True`. -/
def is_hidden (l : LedgerModel) : Bool := l.hidden

/-- `can_post`: `return self.posted is False`. -/
def can_post (l : LedgerModel) : Bool := !l.posted

/-- `can_unpost`: `all([self.is_posted(), not self.is_locked()])`. -/
def can_unpost (l : LedgerModel) : Bool := is_posted l && !(is_locked l)

/-- `can_lock`: `all([not self.locked, self.posted])`. -/
def can_lock (l : LedgerModel) : Bool := !l.locked && l.posted

/-- `can_unlock`: `all([self.locked, self.posted])`. -/
def can_unlock (l : LedgerModel) : Bool := l.locked && l.posted

/-- `can_delete`: `if not self.is_locked() and not self.is_posted(): return
True; return False`. -/
def can_delete (l : LedgerModel) : Bool :=
  if !(is_locked l) && !(is_posted l) then true else false

/-- `post(commit=False)`: `if self.can_post(): self.posted = True`. -/
def post (l : LedgerModel) : LedgerModel :=
  if can_post l then { l with posted := true } else l

/-- `unpost(commit=False)`: `if self.can_unpost(): self.posted = False`. -/
def unpost (l : LedgerModel) : LedgerModel :=
  if can_unpost l then { l with posted := false } else l

/-- `lock(commit=False)`: `if self.can_lock(): self.locked = True`. -/
def lock (l : LedgerModel) : LedgerModel :=
  if can_lock l then { l with locked := true } else l

/-- `unlock(commit=False)`: `if self.can_unlock(): self.locked = False`. -/
def unlock (l : LedgerModel) : LedgerModel :=
  if can_unlock l then { l with locked := false } else l

end LedgerModelAbstract

/-- The four lifecycle operations of the ledger state machine. -/
inductive LedgerOp
  | post
  | unpost
  | lock
  | unlock
deriving DecidableEq, Repr

/-- Apply one lifecycle method to a ledger instance. -/
def applyOp : LedgerOp → LedgerModel → LedgerModel
  | .post, l => LedgerModelAbstract.post l
  | .unpost, l => LedgerModelAbstract.unpost l
  | .lock, l => LedgerModelAbstract.lock l
  | .unlock, l => LedgerModelAbstract.unlock l

/-- Ledgers reachable from the initial state: a ledger is created with the
field defaults `posted=False, locked=False, hidden=False` (any name and
entity), and evolves by the lifecycle methods. -/
inductive ReachableLedger : LedgerModel → Prop
  | init (name : Option String) (e : EntityModel) :
      ReachableLedger { name := name, entity := e }
  | step (op : LedgerOp) {l : LedgerModel} :
      ReachableLedger l → ReachableLedger (applyOp op l)

namespace LedgerModelAbstract

/-- Outcome of `LedgerModel.delete`: success, the state-guard
`LedgerModelValidationError` (carrying name, posted and locked, as the
message does), the closed-period `LedgerModelValidationError` (carrying the
offending journal-entry date and the entity's closing date), or the Python
`TypeError` raised by evaluating `earliest_date <= None` when
`last_closing_date` is unset. -/
inductive DeleteOutcome
  | deleted
  | notDeletable (name : Option String) (posted locked : Bool)
  | closedPeriodViolation (offendingDate closingDate : Nat)
  | noneComparisonError
deriving DecidableEq, Repr

/-- `self.journal_entries.posted().order_by('-timestamp').values('timestamp').first()`:
the greatest timestamp among the ledger's posted journal entries, if any. -/
def mostRecentPostedTimestamp (journal_entries : List JournalEntryModel) : Option Nat :=
  (journal_entries.filter (fun je => je.posted)).foldl
    (fun acc je =>
      match acc with
      | none => some je.timestamp
      | some t => some (max t je.timestamp))
    none

/-- `LedgerModel.delete`, paired with the in-memory instance state after the
call (the method never assigns to `self`'s fields, so that state is the
input instance unchanged):

1. `if not self.can_delete(): raise LedgerModelValidationError(...)`;
2. query the most recent posted journal entry's timestamp;
3. if one exists, compare its `.date()` with `self.entity.last_closing_date`
   (a `TypeError` when the closing date is `None`), raising the
   closed-period error when `date <= last_closing_date`;
4. otherwise delegate destruction to `super().delete()`. -/
def delete (l : LedgerModel) (journal_entries : List JournalEntryModel) :
    DeleteOutcome × LedgerModel :=
  if !(can_delete l) then
    (.notDeletable l.name (is_posted l) (is_locked l), l)
  else
    match mostRecentPostedTimestamp journal_entries with
    | none => (.deleted, l)
    | some t =>
      match l.entity.last_closing_date with
      | none => (.noneComparisonError, l)
      | some closing =>
        if timestampDate t ≤ closing then
          (.closedPeriodViolation (timestampDate t) closing, l)
        else
          (.deleted, l)

end LedgerModelAbstract

namespace LedgerModelManager

/-- An entity reference as accepted by `for_entity`: either an `EntityModel`
instance (the `isinstance` branch) or a slug string. -/
inductive EntityRef
  | model (e : EntityModel)
  | slug (s : String)
deriving DecidableEq, Repr

/-- `LedgerModelManager.for_entity(entity_slug, user_model)`: filter the
queryset to ledgers of the referenced entity whose entity has `user_model`
as admin (`Q(entity__admin=user_model)`) or among its managers
(`Q(entity__managers__in=[user_model])`).  An `EntityModel` instance is
matched by primary key (Django FK equality), a slug by
`entity__slug__exact`. -/
def for_entity (qs : List LedgerModel) (entity_slug : EntityRef) (user_model : Nat) :
    List LedgerModel :=
  match entity_slug with
  | .model e =>
      qs.filter (fun l =>
        l.entity.pk == e.pk &&
          (l.entity.admin == user_model || l.entity.managers.contains user_model))
  | .slug s =>
      qs.filter (fun l =>
        l.entity.slug == s &&
          (l.entity.admin == user_model || l.entity.managers.contains user_model))

/-- Whether an entity is the one denoted by a reference: instance references
denote by primary key, slug references by slug. -/
def EntityRef.matches : EntityRef → EntityModel → Prop
  | .model e0, e => e.pk = e0.pk
  | .slug s, e => e.slug = s

end LedgerModelManager

section ScenarioFixtures

/-- Fixture entity with `last_closing_date = 2023-01-31` (day 19388). -/
def entityClosed : EntityModel :=
  { pk := 1, slug := "entity-closed", admin := 10, managers := [], last_closing_date := some 19388 }

/-- Fixture entity whose `last_closing_date` is unset (`None`). -/
def entityOpen : EntityModel :=
  { pk := 2, slug := "entity-open", admin := 10, managers := [], last_closing_date := none }

/-- Scenario B ledger: `posted=True, locked=False` under `entityClosed`. -/
def scenarioBLedger : LedgerModel :=
  { name := some "scenario-b", entity := entityClosed, posted := true, locked := false }

/-- Scenario B journal entries: one posted entry dated `2023-01-15`
(timestamp inside day 19372). -/
def scenarioBEntries : List JournalEntryModel :=
  [{ timestamp := 19372 * 86400 + 3600, posted := true }]

/-- Scenario C ledger: unposted, unlocked, under `entityClosed`. -/
def scenarioCLedger : LedgerModel :=
  { name := some "scenario-c", entity := entityClosed }

/-- Scenario C journal entries: an older posted entry dated `2023-01-15`
(before the closing date) and the most recent posted entry dated
`2023-02-01` (day 19389, after the closing date). -/
def scenarioCEntries : List JournalEntryModel :=
  [{ timestamp := 19372 * 86400 + 3600, posted := true },
   { timestamp := 19389 * 86400 + 7200, posted := true }]

/-- A deletable ledger under the entity with no closing date. -/
def ledgerOpenBooks : LedgerModel :=
  { name := some "open-books", entity := entityOpen }

/-- One posted journal entry under `ledgerOpenBooks`. -/
def entriesOpenBooks : List JournalEntryModel :=
  [{ timestamp := 19372 * 86400, posted := true }]

/-- A posted, locked ledger. -/
def ledgerPostedLocked : LedgerModel :=
  { name := some "posted-locked", entity := entityClosed, posted := true, locked := true }

/-- A posted, unlocked ledger. -/
def ledgerPosted : LedgerModel :=
  { name := some "posted", entity := entityClosed, posted := true }

/-- Scenario E ledger: `locked=False` (and unposted). -/
def scenarioELedger : LedgerModel :=
  { name := some "scenario-e", entity := entityClosed }

/-- Discriminator for the closed-period `ValidationError` outcome. -/
def isClosedPeriodViolation : LedgerModelAbstract.DeleteOutcome → Bool
  | .closedPeriodViolation _ _ => true
  | _ => false

end ScenarioFixtures

open LedgerModelAbstract in
/-- C1: every ledger reachable from the initial state (created with
`posted=False, locked=False, hidden=False`) by `post`, `unpost`, `lock` and
`unlock` satisfies the invariant that `locked = true` implies
`posted = true`; the induction over `ReachableLedger` shows every
transition preserves it. -/
theorem ledger_locked_implies_posted (l : LedgerModel) (h : ReachableLedger l)
    (hlk : l.locked = true) : l.posted = true := by
  induction h with
  | init name e => simp at hlk
  | @step op l hr ih =>
    obtain ⟨n, e, p, lk, hd⟩ := l
    cases p <;> cases lk <;> cases op <;>
      simp_all [applyOp, LedgerModelAbstract.post, LedgerModelAbstract.unpost,
        LedgerModelAbstract.lock, LedgerModelAbstract.unlock, can_post, can_unpost,
        can_lock, can_unlock, is_posted, is_locked]

/-- Witness for C1: the reachable ledger obtained by `post` then `lock`
from a fresh ledger is locked, and the theorem yields that it is posted. -/
theorem ledger_locked_implies_posted_witness :
    (applyOp .lock (applyOp .post { name := some "w", entity := entityClosed })).posted = true :=
  ledger_locked_implies_posted _
    (ReachableLedger.step .lock (ReachableLedger.step .post
      (ReachableLedger.init (some "w") entityClosed))) rfl

open LedgerModelAbstract in
/-- C2: the transition predicates equal the specified formulas over the
current flags: `can_post` iff not posted; `can_unpost` iff posted and not
locked; `can_lock` iff not locked and posted; `can_unlock` iff locked and
posted; `can_delete` iff not posted and not locked. -/
theorem ledger_can_predicates_match_spec (l : LedgerModel) :
    (can_post l = true ↔ l.posted = false) ∧
    (can_unpost l = true ↔ l.posted = true ∧ l.locked = false) ∧
    (can_lock l = true ↔ l.locked = false ∧ l.posted = true) ∧
    (can_unlock l = true ↔ l.locked = true ∧ l.posted = true) ∧
    (can_delete l = true ↔ l.posted = false ∧ l.locked = false) := by
  obtain ⟨n, e, p, lk, hd⟩ := l
  cases p <;> cases lk <;>
    simp [can_post, can_unpost, can_lock, can_unlock, can_delete, is_posted, is_locked]

open LedgerModelAbstract in
/-- C7: a lifecycle call whose precondition fails is a silent no-op: the
whole instance (in particular `posted`, `locked` and `hidden`) is unchanged,
and — the embedded methods being total functions — no error is raised. -/
theorem illegal_transitions_are_noops (l : LedgerModel) :
    (¬ can_post l = true → LedgerModelAbstract.post l = l) ∧
    (¬ can_unpost l = true → unpost l = l) ∧
    (¬ can_lock l = true → LedgerModelAbstract.lock l = l) ∧
    (¬ can_unlock l = true → unlock l = l) := by
  refine ⟨fun h => ?_, fun h => ?_, fun h => ?_, fun h => ?_⟩ <;>
    simp [LedgerModelAbstract.post, unpost, LedgerModelAbstract.lock, unlock, h]

/-- Witness for C7 (Scenario E): `unlock()` on a ledger with
`locked=False` leaves the instance unchanged. -/
theorem illegal_transitions_are_noops_witness :
    LedgerModelAbstract.unlock scenarioELedger = scenarioELedger :=
  (illegal_transitions_are_noops scenarioELedger).2.2.2 (by decide)

open LedgerModelAbstract in
/-- Counterexample for C8: a ledger that is already posted and locked does
not get its `(posted, locked)` pair restored by `lock` then `unlock`: it
ends unlocked (`lock` is a no-op, `unlock` is not). -/
theorem lock_unlock_already_locked_counterexample :
    ¬ ((unlock (LedgerModelAbstract.lock ledgerPostedLocked)).posted = ledgerPostedLocked.posted ∧
       (unlock (LedgerModelAbstract.lock ledgerPostedLocked)).locked = ledgerPostedLocked.locked) := by
  decide

open LedgerModelAbstract in
/-- C8 (amended): for every ledger that is not already posted-and-locked,
`lock` then `unlock` restores exactly the prior `(posted, locked)` pair. -/
theorem lock_unlock_roundtrip (l : LedgerModel)
    (h : ¬(l.posted = true ∧ l.locked = true)) :
    (unlock (LedgerModelAbstract.lock l)).posted = l.posted ∧
    (unlock (LedgerModelAbstract.lock l)).locked = l.locked := by
  obtain ⟨n, e, p, lk, hd⟩ := l
  cases p <;> cases lk <;>
    simp_all [LedgerModelAbstract.lock, unlock, can_lock, can_unlock]

/-- Witness for C8: the round-trip at a posted, unlocked ledger. -/
theorem lock_unlock_roundtrip_witness :
    (LedgerModelAbstract.unlock (LedgerModelAbstract.lock ledgerPosted)).posted
        = ledgerPosted.posted ∧
    (LedgerModelAbstract.unlock (LedgerModelAbstract.lock ledgerPosted)).locked
        = ledgerPosted.locked :=
  lock_unlock_roundtrip ledgerPosted (by decide)

open LedgerModelAbstract in
/-- C9: `post` is idempotent: after one call the ledger is posted, after a
second call it is still posted, the second call changes nothing, and — the
embedded method being a total function — it raises no error. -/
theorem post_idempotent (l : LedgerModel) :
    (LedgerModelAbstract.post l).posted = true ∧
    (LedgerModelAbstract.post (LedgerModelAbstract.post l)).posted = true ∧
    LedgerModelAbstract.post (LedgerModelAbstract.post l) = LedgerModelAbstract.post l := by
  obtain ⟨n, e, p, lk, hd⟩ := l
  cases p <;> simp [LedgerModelAbstract.post, can_post]

open LedgerModelAbstract in
/-- C10: frame conditions of the lifecycle: `post`/`unpost` change at most
`posted`, `lock`/`unlock` change at most `locked`, none of them (nor
`delete`) ever changes `hidden`, and `delete` leaves the instance state
unchanged whatever its outcome — in particular when it fails with either
validation error. -/
theorem lifecycle_frame_conditions (l : LedgerModel) :
    (LedgerModelAbstract.post l).locked = l.locked ∧
    (LedgerModelAbstract.post l).hidden = l.hidden ∧
    (LedgerModelAbstract.post l).name = l.name ∧
    (LedgerModelAbstract.post l).entity = l.entity ∧
    (unpost l).locked = l.locked ∧
    (unpost l).hidden = l.hidden ∧
    (unpost l).name = l.name ∧
    (unpost l).entity = l.entity ∧
    (LedgerModelAbstract.lock l).posted = l.posted ∧
    (LedgerModelAbstract.lock l).hidden = l.hidden ∧
    (LedgerModelAbstract.lock l).name = l.name ∧
    (LedgerModelAbstract.lock l).entity = l.entity ∧
    (unlock l).posted = l.posted ∧
    (unlock l).hidden = l.hidden ∧
    (unlock l).name = l.name ∧
    (unlock l).entity = l.entity ∧
    ∀ js : List JournalEntryModel, (delete l js).2 = l := by
  refine ⟨?_, ?_, ?_, ?_, ?_, ?_, ?_, ?_, ?_, ?_, ?_, ?_, ?_, ?_, ?_, ?_, ?_⟩ <;>
    first
    | (simp only [LedgerModelAbstract.post, unpost, LedgerModelAbstract.lock, unlock]
       split <;> rfl)
    | (intro js
       unfold delete
       split
       · rfl
       · split
         · rfl
         · split
           · rfl
           · split <;> rfl)

open LedgerModelAbstract in
/-- Counterexample for C3: on a deletable ledger (posted and locked both
false) owning a posted journal entry, under an entity whose
`last_closing_date` is unset, `delete()` neither raises
`ClosedPeriodViolation` nor proceeds to destruction — it crashes comparing
a date with `None` — so the claimed dichotomy fails as stated. -/
theorem delete_unset_closing_counterexample :
    can_delete ledgerOpenBooks = true ∧
    ¬ ((delete ledgerOpenBooks entriesOpenBooks).1 = DeleteOutcome.deleted ∨
       isClosedPeriodViolation (delete ledgerOpenBooks entriesOpenBooks).1 = true) := by
  decide

open LedgerModelAbstract in
/-- C3 (amended): for every deletable ledger of an entity whose
`last_closing_date` is set, `delete` consults only the posted journal
entry with the greatest timestamp: it proceeds to destruction iff that
entry (when it exists) is dated after the closing date, and when that
entry is dated on or before the closing date it fails with
`ClosedPeriodViolation` carrying the offending date and the closing date. -/
theorem delete_closed_period_guard (l : LedgerModel) (js : List JournalEntryModel)
    (c : Nat) (hdel : can_delete l = true)
    (hc : l.entity.last_closing_date = some c) :
    ((delete l js).1 = DeleteOutcome.deleted ↔
       ∀ t, mostRecentPostedTimestamp js = some t → ¬ timestampDate t ≤ c) ∧
    (∀ t, mostRecentPostedTimestamp js = some t → timestampDate t ≤ c →
       (delete l js).1 = DeleteOutcome.closedPeriodViolation (timestampDate t) c) := by
  cases hm : mostRecentPostedTimestamp js with
  | none => simp [delete, hdel, hm]
  | some t =>
    by_cases hle : timestampDate t ≤ c
    · simp [delete, hdel, hc, hm, hle]
    · simp [delete, hdel, hc, hm, hle]
      omega

/-- Witness for C3 (Scenario C): the most recent posted entry is dated
`2023-02-01`, after the closing date `2023-01-31`, so the ledger is deleted
even though an older posted entry is dated `2023-01-15`. -/
theorem delete_closed_period_guard_witness :
    (LedgerModelAbstract.delete scenarioCLedger scenarioCEntries).1
      = LedgerModelAbstract.DeleteOutcome.deleted := by
  refine (delete_closed_period_guard scenarioCLedger scenarioCEntries 19388
    (by decide) rfl).1.mpr ?_
  intro t ht
  rw [show LedgerModelAbstract.mostRecentPostedTimestamp scenarioCEntries
        = some (19389 * 86400 + 7200) by decide] at ht
  injection ht with h
  subst h
  decide

open LedgerModelAbstract in
/-- Counterexample for C4 (Scenario B): with `posted=True, locked=False`,
closing date `2023-01-31` and the most recent posted journal entry dated
`2023-01-15`, `delete()` does not fail with `ClosedPeriodViolation`: the
state guard runs first and raises the not-deletable error. -/
theorem scenario_b_counterexample :
    isClosedPeriodViolation (delete scenarioBLedger scenarioBEntries).1 = false ∧
    (delete scenarioBLedger scenarioBEntries).1
      = DeleteOutcome.notDeletable (some "scenario-b") true false :=
  ⟨rfl, rfl⟩

open LedgerModelAbstract in
/-- C4 (amended): for every posted ledger, `delete()` fails with the
state-guard `LedgerModelValidationError` (not deletable, carrying the name
and the posted/locked values) before the closed-period check is ever
consulted, whatever the journal entries and closing date. -/
theorem delete_state_guard_runs_first (l : LedgerModel) (js : List JournalEntryModel)
    (hp : l.posted = true) :
    (delete l js).1 = DeleteOutcome.notDeletable l.name true l.locked := by
  have hcd : can_delete l = false := by
    simp [can_delete, is_posted, is_locked, hp]
  simp [delete, hcd, is_posted, is_locked, hp]

/-- Witness for C4: the amended behavior at the Scenario B fixture. -/
theorem delete_state_guard_runs_first_witness :
    (LedgerModelAbstract.delete scenarioBLedger scenarioBEntries).1
      = LedgerModelAbstract.DeleteOutcome.notDeletable (some "scenario-b") true false :=
  delete_state_guard_runs_first scenarioBLedger scenarioBEntries rfl

open LedgerModelAbstract in
/-- C5: the code evaluates `earliest_date <= self.entity.last_closing_date`
without checking that the closing date is set: on a deletable ledger with a
posted journal entry and `last_closing_date = None`, `delete()` raises the
`TypeError` of comparing a date with `None` instead of succeeding as the
specified `isClosedFor` contract requires. -/
theorem delete_crashes_on_unset_closing_date :
    can_delete ledgerOpenBooks = true ∧
    (delete ledgerOpenBooks entriesOpenBooks).1 = DeleteOutcome.noneComparisonError :=
  ⟨rfl, rfl⟩

open LedgerModelManager in
/-- C6: membership in `for_entity`: a ledger is returned iff it is in the
queryset, belongs to the referenced entity (by primary key for an instance
reference, by slug for a slug reference), and the requesting user is the
admin of the entity of the ledger or among its managers.  In particular no
ledger of an entity for which the user is neither admin nor manager is ever
returned. -/
theorem for_entity_membership (qs : List LedgerModel) (ref : EntityRef) (u : Nat)
    (l : LedgerModel) :
    l ∈ for_entity qs ref u ↔
      l ∈ qs ∧ EntityRef.matches ref l.entity ∧
        (l.entity.admin = u ∨ u ∈ l.entity.managers) := by
  cases ref with
  | model e => simp [for_entity, EntityRef.matches, List.mem_filter, and_assoc]
  | slug s => simp [for_entity, EntityRef.matches, List.mem_filter, and_assoc]
